import Mathlib

/-!
Shallow embedding of the resource-lifecycle and leak-detection layer of the
repository: the memory monitor (sampler log, trend analyzer, efficiency
scorer), the fallback file-watch coordinator, and the terminal-process
registry. Numeric sample values are modelled as rationals; measurement logs
are ordered lists.
-/

namespace MemoryMonitor

/-- One sample of the measurement log (interface MemoryMeasurement).
The `external` byte counter of the source is named `externalBytes` here. -/
structure MemoryMeasurement where
  timestamp : ℚ
  heapUsed : ℚ
  heapTotal : ℚ
  externalBytes : ℚ
  arrayBuffers : ℚ
  jsHeapSizeLimit : Option ℚ := none
  usedJSHeapSize : Option ℚ := none
  totalJSHeapSize : Option ℚ := none
  testPhase : String
  componentCount : Option ℚ := none
  terminalCount : Option ℚ := none
  listenerCount : Option ℚ := none
  fileWatcherCount : Option ℚ := none
  streamReaderCount : Option ℚ := none
deriving Repr, DecidableEq

/-- The all-zero measurement, used as the default for head/last lookups that
the source guards by length checks. -/
def mzero : MemoryMeasurement :=
  { timestamp := 0, heapUsed := 0, heapTotal := 0, externalBytes := 0,
    arrayBuffers := 0, testPhase := "" }

/-- The derived report (interface MemoryReport). -/
structure MemoryReport where
  baseline : ℚ
  current : ℚ
  peak : ℚ
  growth : ℚ
  measurements : List MemoryMeasurement
  leakDetected : Bool
  averageGrowthRate : ℚ
  memoryEfficiency : ℚ
deriving Repr, DecidableEq

/-- Math.max over a non-empty list of values (empty list mapped to 0; the
source only evaluates it on logs of length at least 2). -/
def listMax : List ℚ → ℚ
  | [] => 0
  | h :: t => t.foldl max h

/-- MemoryMonitor.calculateTrend: least-squares slope of the values against
index 0..n-1, using the closed forms n(n-1)/2 for sum of x and
n(n-1)(2n-1)/6 for sum of x squared; 0 when n < 2 or the denominator is 0. -/
def calculateTrend (values : List ℚ) : ℚ :=
  let n := values.length
  if n < 2 then 0
  else
    let nq : ℚ := (n : ℚ)
    let sumX : ℚ := nq * (nq - 1) / 2
    let sumY : ℚ := values.sum
    let sumXY : ℚ := (values.enum.map (fun p => ((p.1 : ℕ) : ℚ) * p.2)).sum
    let sumX2 : ℚ := nq * (nq - 1) * (2 * nq - 1) / 6
    let denominator := nq * sumX2 - sumX * sumX
    if denominator ≠ 0 then (nq * sumXY - sumX * sumY) / denominator else 0

/-- MemoryMonitor.detectLeak: false for logs shorter than 10 samples,
otherwise the trend of the heapUsed values of the last 10 samples compared
against the hardcoded threshold 1024 * 1024. -/
def detectLeak (measurements : List MemoryMeasurement) : Bool :=
  if measurements.length < 10 then false
  else
    let recent := measurements.drop (measurements.length - 10)
    let trend := calculateTrend (recent.map (fun m => m.heapUsed))
    let leakThreshold : ℚ := 1024 * 1024
    decide (trend > leakThreshold)

/-- MemoryMonitor.calculateAverageGrowthRate: growth of heapUsed from first
to last sample divided by elapsed seconds; 0 for short logs or when no time
elapsed. -/
def calculateAverageGrowthRate (measurements : List MemoryMeasurement) : ℚ :=
  if measurements.length < 2 then 0
  else
    let baseline := measurements.headD mzero
    let current := measurements.getLastD mzero
    let timeDiff := (current.timestamp - baseline.timestamp) / 1000
    let memoryDiff := current.heapUsed - baseline.heapUsed
    if timeDiff > 0 then memoryDiff / timeDiff else 0

/-- MemoryMonitor.calculateMemoryEfficiency: 1 for short logs or when the
peak equals the baseline, otherwise 1 - (current - baseline)/(peak - baseline)
clamped into [0, 1] by Math.max(0, Math.min(1, _)). -/
def calculateMemoryEfficiency (measurements : List MemoryMeasurement) : ℚ :=
  if measurements.length < 2 then 1
  else
    let baseline := measurements.headD mzero
    let peak := listMax (measurements.map (fun m => m.heapUsed))
    let current := measurements.getLastD mzero
    if peak = baseline.heapUsed then 1
    else
      let efficiency := 1 - (current.heapUsed - baseline.heapUsed) / (peak - baseline.heapUsed)
      max 0 (min 1 efficiency)

/-- MemoryMonitor.getReport. -/
def getReport (measurements : List MemoryMeasurement) : MemoryReport :=
  if measurements.length = 0 then
    { baseline := 0, current := 0, peak := 0, growth := 0, measurements := [],
      leakDetected := false, averageGrowthRate := 0, memoryEfficiency := 1 }
  else
    let baseline := measurements.headD mzero
    let current := measurements.getLastD mzero
    let peak := listMax (measurements.map (fun m => m.heapUsed))
    let growth := current.heapUsed - baseline.heapUsed
    { baseline := baseline.heapUsed, current := current.heapUsed, peak := peak,
      growth := growth, measurements := measurements,
      leakDetected := detectLeak measurements,
      averageGrowthRate := calculateAverageGrowthRate measurements,
      memoryEfficiency := calculateMemoryEfficiency measurements }

/-- MemoryMonitor.clear: empties the measurement log. -/
def clearMeasurements (_measurements : List MemoryMeasurement) : List MemoryMeasurement := []

/-- The regression slope exactly as the specification words it: x values are
the sample indices 0..n-1, slope = (n·Σxy − Σx·Σy) / (n·Σx² − (Σx)²), and 0
when that denominator is 0. -/
def specSlope (ys : List ℚ) : ℚ :=
  let n : ℚ := (ys.length : ℚ)
  let sumX : ℚ := ((List.range ys.length).map (fun i : ℕ => (i : ℚ))).sum
  let sumY : ℚ := ys.sum
  let sumXY : ℚ := (ys.enum.map (fun p => ((p.1 : ℕ) : ℚ) * p.2)).sum
  let sumX2 : ℚ := ((List.range ys.length).map (fun i : ℕ => (i : ℚ) * (i : ℚ))).sum
  let den := n * sumX2 - sumX * sumX
  if den ≠ 0 then (n * sumXY - sumX * sumY) / den else 0

/-- The efficiency formula exactly as the specification words it, for a
non-empty log: baseline is the first heapUsed, current the last, peak the
maximum over the log; 1 when peak = baseline, else the clamped formula. -/
def specEfficiency (measurements : List MemoryMeasurement) : ℚ :=
  let baseline := (measurements.headD mzero).heapUsed
  let current := (measurements.getLastD mzero).heapUsed
  let peak := listMax (measurements.map (fun m => m.heapUsed))
  if peak = baseline then 1
  else max 0 (min 1 (1 - (current - baseline) / (peak - baseline)))

/-- A synthetic log of 10 samples whose heapUsed grows by exactly 2 MiB
(2097152 bytes) per sample. -/
def leakExample : List MemoryMeasurement :=
  [{ mzero with timestamp := 0, heapUsed := 0 },
   { mzero with timestamp := 1000, heapUsed := 2097152 },
   { mzero with timestamp := 2000, heapUsed := 4194304 },
   { mzero with timestamp := 3000, heapUsed := 6291456 },
   { mzero with timestamp := 4000, heapUsed := 8388608 },
   { mzero with timestamp := 5000, heapUsed := 10485760 },
   { mzero with timestamp := 6000, heapUsed := 12582912 },
   { mzero with timestamp := 7000, heapUsed := 14680064 },
   { mzero with timestamp := 8000, heapUsed := 16777216 },
   { mzero with timestamp := 9000, heapUsed := 18874368 }]

end MemoryMonitor

namespace MemoryMonitor

lemma sum_range_cast (n : ℕ) :
    (((List.range n).map (fun i : ℕ => (i : ℚ))).sum) = (n : ℚ) * ((n : ℚ) - 1) / 2 := by
  induction n with
  | zero => simp
  | succ k ih =>
    rw [List.range_succ, List.map_append, List.sum_append, ih]
    simp only [List.map_cons, List.map_nil, List.sum_cons, List.sum_nil]
    push_cast
    ring

lemma sum_range_sq_cast (n : ℕ) :
    (((List.range n).map (fun i : ℕ => (i : ℚ) * (i : ℚ))).sum)
      = (n : ℚ) * ((n : ℚ) - 1) * (2 * (n : ℚ) - 1) / 6 := by
  induction n with
  | zero => simp
  | succ k ih =>
    rw [List.range_succ, List.map_append, List.sum_append, ih]
    simp only [List.map_cons, List.map_nil, List.sum_cons, List.sum_nil]
    push_cast
    ring

/-- The code slope agrees with the slope as worded by the specification, on
every list of values: the closed forms the code uses for Σx and Σx² are the
sums over indices 0..n-1, and both define the degenerate case to be 0. -/
lemma calculateTrend_eq_specSlope (ys : List ℚ) : calculateTrend ys = specSlope ys := by
  simp only [calculateTrend, specSlope, sum_range_cast, sum_range_sq_cast]
  by_cases h : ys.length < 2
  · rw [if_pos h]
    interval_cases h2 : ys.length <;> norm_num
  · rw [if_neg h]

end MemoryMonitor

namespace MemoryMonitor

/-- A sample with the given timestamp and heapUsed and all other counters
zero. -/
def mkSample (t h : ℚ) : MemoryMeasurement :=
  { mzero with timestamp := t, heapUsed := h }

/-- Log with baseline 10 MiB, peak 50 MiB, current back at 10 MiB. -/
def effExampleBack : List MemoryMeasurement :=
  [mkSample 0 10485760, mkSample 1000 52428800, mkSample 2000 10485760]

/-- Log with baseline 10 MiB, peak 50 MiB, current still at the 50 MiB peak. -/
def effExamplePeak : List MemoryMeasurement :=
  [mkSample 0 10485760, mkSample 1000 52428800]

/-- Log with baseline 10 MiB, peak 50 MiB, current at 30 MiB. -/
def effExampleHalf : List MemoryMeasurement :=
  [mkSample 0 10485760, mkSample 1000 52428800, mkSample 2000 31457280]

end MemoryMonitor

open MemoryMonitor in
/-- C1: for every log with at least 10 samples, detectLeak is true exactly
when the least-squares slope of heapUsed over the most recent 10 samples
against index 0..9 — the (n·Σxy − Σx·Σy)/(n·Σx² − (Σx)²) formula with the
degenerate case defined as 0 — strictly exceeds the default threshold of
1 MiB = 1048576 bytes; and the synthetic 10-sample log growing by exactly
2 MiB per sample has slope 2097152 and is classified as a leak. -/
theorem c1_leak_iff_slope_exceeds_threshold :
    (∀ ms : List MemoryMeasurement, 10 ≤ ms.length →
       (detectLeak ms = true ↔
         1048576 < specSlope ((ms.drop (ms.length - 10)).map (fun m => m.heapUsed))))
    ∧ specSlope (leakExample.map (fun m => m.heapUsed)) = 2097152
    ∧ detectLeak leakExample = true := by
  refine ⟨?_, ?_, ?_⟩
  case refine_2 =>
    rw [← calculateTrend_eq_specSlope]
    norm_num [calculateTrend, leakExample, mzero, List.enum, List.enumFrom]
  case refine_3 =>
    norm_num [detectLeak, leakExample, mzero, calculateTrend, List.enum,
      List.enumFrom, decide_eq_true_eq]
  intro ms h
  simp only [detectLeak, if_neg (by omega : ¬ ms.length < 10),
    calculateTrend_eq_specSlope, decide_eq_true_eq]
  norm_num

open MemoryMonitor in
/-- C2: a log with fewer than 10 samples is never classified as a leak,
whatever its values; in particular the empty log is not. -/
theorem c2_short_log_never_leak :
    (∀ ms : List MemoryMeasurement, ms.length < 10 → detectLeak ms = false)
    ∧ detectLeak [] = false := by
  refine ⟨?_, by norm_num [detectLeak]⟩
  intro ms h
  simp [detectLeak, h]

open MemoryMonitor in
/-- C3: on every non-empty log the code efficiency equals the specification
formula — 1 when peak = baseline, otherwise 1 − (current − baseline)/(peak −
baseline) clamped to [0,1] — and with baseline 10 MiB and peak 50 MiB the
current values 10 MiB, 50 MiB and 30 MiB give efficiencies 1, 0 and 1/2. -/
theorem c3_memory_efficiency_formula :
    (∀ ms : List MemoryMeasurement, ms ≠ [] →
       calculateMemoryEfficiency ms = specEfficiency ms)
    ∧ calculateMemoryEfficiency effExampleBack = 1
    ∧ calculateMemoryEfficiency effExamplePeak = 0
    ∧ calculateMemoryEfficiency effExampleHalf = 1 / 2 := by
  refine ⟨?_,
    by norm_num [calculateMemoryEfficiency, effExampleBack, mkSample, mzero,
         listMax, max_def, min_def],
    by norm_num [calculateMemoryEfficiency, effExamplePeak, mkSample, mzero,
         listMax, max_def, min_def],
    by norm_num [calculateMemoryEfficiency, effExampleHalf, mkSample, mzero,
         listMax, max_def, min_def]⟩
  intro ms h
  rcases ms with _ | ⟨a, _ | ⟨b, t⟩⟩
  · exact absurd rfl h
  · simp [calculateMemoryEfficiency, specEfficiency, listMax]
  · have hlen : ¬ (a :: b :: t).length < 2 := by
      simp [List.length_cons]
    simp only [calculateMemoryEfficiency, specEfficiency, if_neg hlen]

open MemoryMonitor in
/-- C10: on the empty measurement log — no samples recorded, or any log
after clear — getReport returns the fixed report with baseline, current,
peak, growth and averageGrowthRate 0, leakDetected false and
memoryEfficiency 1. -/
theorem c10_empty_log_report :
    getReport ([] : List MemoryMeasurement) =
      { baseline := 0, current := 0, peak := 0, growth := 0, measurements := [],
        leakDetected := false, averageGrowthRate := 0, memoryEfficiency := 1 }
    ∧ (∀ ms : List MemoryMeasurement,
        getReport (clearMeasurements ms) =
          { baseline := 0, current := 0, peak := 0, growth := 0, measurements := [],
            leakDetected := false, averageGrowthRate := 0, memoryEfficiency := 1 }) := by
  exact ⟨rfl, fun ms => rfl⟩

namespace FileWatcher

/-- One close handle returned by safeWatch: the three shapes correspond to
the three return branches of the source (already-in-fallback, native
success, native failure). Callbacks are identified by opaque numbers. -/
inductive CloseHandle where
  | fallback (pattern : String) (cb : ℕ)
  | native (watcherId : ℕ) (pattern : String) (cb : ℕ)
  | fallbackAfterFail (pattern : String) (cb : ℕ)
deriving Repr, DecidableEq

/-- The module-level watcherState object, together with the persisted
localStorage flag and the native watcher objects that the closures of the
source close over. Timer and watcher identities are numbers drawn from
nextId. -/
structure WatcherState where
  fallbackEnabled : Bool
  watchingPaths : List String
  callbacks : List (String × List ℕ)
  pollingInterval : Bool
  disposed : Bool
  individualIntervals : List ℕ
  cleanupListeners : ℕ
  persistedFallback : Bool
  nativeWatchers : List (ℕ × String)
  nextId : ℕ
deriving Repr, DecidableEq

/-- Coordinator construction: watcherState is initialised with
fallbackEnabled := tryLoadFallbackState(), everything else empty. The
persisted localStorage value is the argument. -/
def initWatcherState (persisted : Bool) : WatcherState :=
  { fallbackEnabled := persisted, watchingPaths := [], callbacks := [],
    pollingInterval := false, disposed := false, individualIntervals := [],
    cleanupListeners := 0, persistedFallback := persisted,
    nativeWatchers := [], nextId := 0 }

/-- JS Set.add on a list kept without duplicates. -/
def setAdd (s : List ℕ) (x : ℕ) : List ℕ :=
  if x ∈ s then s else s ++ [x]

/-- JS Set.add for pattern strings. -/
def pathAdd (s : List String) (x : String) : List String :=
  if x ∈ s then s else s ++ [x]

/-- JS Map.set for an existing or new pattern key. -/
def mapSet (m : List (String × List ℕ)) (p : String) (v : List ℕ) :
    List (String × List ℕ) :=
  if m.any (fun e => e.1 == p) then
    m.map (fun e => if e.1 == p then (p, v) else e)
  else m ++ [(p, v)]

/-- JS Map.delete of a pattern key. -/
def mapDelete (m : List (String × List ℕ)) (p : String) : List (String × List ℕ) :=
  m.filter (fun e => e.1 != p)

/-- Lines 154-158: if the callbacks map has no entry for the pattern, give
it an empty set, then add the callback to the set of the pattern. -/
def addCallback (m : List (String × List ℕ)) (p : String) (cb : ℕ) :
    List (String × List ℕ) :=
  match m.lookup p with
  | none => m ++ [(p, [cb])]
  | some s => mapSet m p (setAdd s cb)

/-- The close bookkeeping shared by all three branches: delete the callback
from the set of the pattern; if the set becomes empty, delete the pattern
entry. -/
def removeCallback (m : List (String × List ℕ)) (p : String) (cb : ℕ) :
    List (String × List ℕ) :=
  match m.lookup p with
  | none => m
  | some s =>
    let s2 := s.erase cb
    if s2.length = 0 then mapDelete m p else mapSet m p s2

/-- ensurePollingActive: a no-op when the shared interval already runs or
the watcher is disposed; otherwise starts the shared 3s interval and
registers the unload cleanup listeners. -/
def ensurePollingActive (s : WatcherState) : WatcherState :=
  if s.pollingInterval || s.disposed then s
  else { s with pollingInterval := true, cleanupListeners := s.cleanupListeners + 1 }

/-- stopPolling: clears the shared interval if it runs. -/
def stopPolling (s : WatcherState) : WatcherState :=
  if s.pollingInterval then { s with pollingInterval := false } else s

/-- safeWatch. The nativeOk argument stands for whether the awaited
webcontainer.fs.watch call succeeds. The result carries the new state, the
close handle of the returned watcher object, and whether the native
primitive was attempted at all (it is not once fallback mode is on). -/
def safeWatch (s : WatcherState) (pattern : String) (cb : ℕ) (nativeOk : Bool) :
    Except String (WatcherState × CloseHandle × Bool) :=
  if s.disposed then
    Except.error "Cannot watch files with disposed file watcher"
  else
    let s1 := { s with callbacks := addCallback s.callbacks pattern cb }
    if s1.fallbackEnabled then
      Except.ok (ensurePollingActive s1, CloseHandle.fallback pattern cb, false)
    else if nativeOk then
      let wid := s1.nextId
      Except.ok ({ s1 with
                    watchingPaths := pathAdd s1.watchingPaths pattern,
                    nativeWatchers := s1.nativeWatchers ++ [(wid, pattern)],
                    nextId := wid + 1 },
                 CloseHandle.native wid pattern cb, true)
    else
      Except.ok (ensurePollingActive
                   { s1 with fallbackEnabled := true, persistedFallback := true },
                 CloseHandle.fallbackAfterFail pattern cb, true)

/-- Invoking the close method of a safeWatch handle. For a native handle
the source first calls watcher.close() — which may throw, skipping the rest
of the close body; nativeCloseOk stands for that call succeeding — then
deletes the pattern from watchingPaths and removes the callback. Only the
native-failure branch handle stops the shared poll timer when the callbacks
map has become empty. -/
def closeWatcher (s : WatcherState) (h : CloseHandle) (nativeCloseOk : Bool) :
    WatcherState :=
  match h with
  | CloseHandle.fallback p cb =>
    { s with callbacks := removeCallback s.callbacks p cb }
  | CloseHandle.native wid p cb =>
    if nativeCloseOk then
      { s with nativeWatchers := s.nativeWatchers.filter (fun e => e.1 != wid),
               watchingPaths := s.watchingPaths.erase p,
               callbacks := removeCallback s.callbacks p cb }
    else s
  | CloseHandle.fallbackAfterFail p cb =>
    let s2 := { s with callbacks := removeCallback s.callbacks p cb }
    if s2.callbacks.length = 0 then stopPolling s2 else s2

/-- A change event fired by the native watcher with the given id: its
listener reads the current callback set of the pattern it was created for
and invokes every callback in it. A closed watcher fires nothing. -/
def nativeEventCallbacks (s : WatcherState) (wid : ℕ) : List ℕ :=
  match s.nativeWatchers.lookup wid with
  | none => []
  | some p => (s.callbacks.lookup p).getD []

/-- One tick of the shared poll interval: nothing happens if the timer is
not running; a tick on a disposed state stops the timer; otherwise every
callback of every pattern is invoked (each wrapped in try/catch). Returns
the invoked callbacks and the state after the tick. -/
def pollTick (s : WatcherState) : List ℕ × WatcherState :=
  if !s.pollingInterval then ([], s)
  else if s.disposed then ([], stopPolling s)
  else ((s.callbacks.map (fun e => e.2)).flatten, s)

/-- The handle safeWatchPaths returns: the native internal.watchPaths
subscription, or the individual polling interval of the fallback path. -/
inductive WatchPathsHandle where
  | native
  | polling (intervalId : ℕ)
deriving Repr, DecidableEq

/-- safeWatchPaths. There is no disposed check; in fallback mode (or after
a native failure) an individual 3s interval is created and tracked in
individualIntervals. nativeOk stands for webcontainer.internal.watchPaths
returning without throwing. -/
def safeWatchPaths (s : WatcherState) (nativeOk : Bool) :
    WatcherState × WatchPathsHandle :=
  if s.fallbackEnabled then
    let s1 := ensurePollingActive s
    let iid := s1.nextId
    ({ s1 with individualIntervals := s1.individualIntervals ++ [iid],
               nextId := iid + 1 },
     WatchPathsHandle.polling iid)
  else if nativeOk then (s, WatchPathsHandle.native)
  else
    let s1 := ensurePollingActive
      { s with fallbackEnabled := true, persistedFallback := true }
    let iid := s1.nextId
    ({ s1 with individualIntervals := s1.individualIntervals ++ [iid],
               nextId := iid + 1 },
     WatchPathsHandle.polling iid)

/-- Invoking the close method of a safeWatchPaths handle: clears the
individual interval and removes it from tracking; closing the native handle
touches no coordinator state. -/
def closeWatchPaths (s : WatcherState) (h : WatchPathsHandle) : WatcherState :=
  match h with
  | WatchPathsHandle.native => s
  | WatchPathsHandle.polling iid =>
    { s with individualIntervals := s.individualIntervals.erase iid }

/-- disposeFileWatcher: a no-op on an already disposed state; otherwise
sets the disposed flag first, stops the shared interval, clears the
individual intervals, the callback and path bookkeeping and the unload
listeners. -/
def disposeFileWatcher (s : WatcherState) : WatcherState :=
  if s.disposed then s
  else
    let s1 := { s with disposed := true }
    let s2 := stopPolling s1
    { s2 with individualIntervals := [], callbacks := [], watchingPaths := [],
              cleanupListeners := 0 }

/-- Every operation of the coordinator, as seen from the watcherState. -/
inductive WatchOp where
  | watch (pattern : String) (cb : ℕ) (nativeOk : Bool)
  | close (h : CloseHandle) (nativeCloseOk : Bool)
  | watchPaths (nativeOk : Bool)
  | closePaths (h : WatchPathsHandle)
  | dispose
  | tick
deriving Repr, DecidableEq

/-- The state after one operation (a failed safeWatch leaves the state
unchanged, matching the source which throws before touching it). -/
def applyOp (s : WatcherState) (op : WatchOp) : WatcherState :=
  match op with
  | WatchOp.watch p cb ok =>
    match safeWatch s p cb ok with
    | Except.error _ => s
    | Except.ok r => r.1
  | WatchOp.close h ok => closeWatcher s h ok
  | WatchOp.watchPaths ok => (safeWatchPaths s ok).1
  | WatchOp.closePaths h => closeWatchPaths s h
  | WatchOp.dispose => disposeFileWatcher s
  | WatchOp.tick => (pollTick s).2

end FileWatcher

namespace TerminalStore

/-- One tracked terminal record: the identity of its shell process and
whether that process is already killed. -/
structure TerminalRec where
  id : ℕ
  killed : Bool
deriving Repr, DecidableEq

/-- The private state of a TerminalStore: the tracked terminal records, the
idempotency flag, and whether the bolt terminal has had dispose invoked. -/
structure TerminalStoreState where
  terminals : List TerminalRec
  disposed : Bool
  boltDisposed : Bool
deriving Repr, DecidableEq

/-- attachTerminal: a warning no-op on a disposed store; otherwise the
spawned record is pushed (spawnOk stands for newShellProcess succeeding —
on failure only the error text is written to the terminal). -/
def attachTerminal (s : TerminalStoreState) (t : TerminalRec) (spawnOk : Bool) :
    TerminalStoreState :=
  if s.disposed then s
  else if spawnOk then { s with terminals := s.terminals ++ [t] } else s

/-- detachAllTerminals: for every record, concurrently, kill() is requested
when the process is not already killed, each request wrapped in its own
try/catch so a rejection is caught and logged; Promise.allSettled waits for
every outcome; then the tracking array is cleared. killOk gives the outcome
of each kill request; the second component lists the requests issued with
their outcomes. -/
def detachAllTerminals (s : TerminalStoreState) (killOk : ℕ → Bool) :
    TerminalStoreState × List (ℕ × Bool) :=
  ({ s with terminals := [] },
   (s.terminals.filter (fun t => !t.killed)).map (fun t => (t.id, killOk t.id)))

/-- TerminalStore.dispose: a no-op when the disposed flag is already set;
otherwise the flag is set first, then detachAllTerminals runs, then the
bolt terminal dispose is invoked inside try/catch. -/
def dispose (s : TerminalStoreState) (killOk : ℕ → Bool) : TerminalStoreState :=
  if s.disposed then s
  else
    let s1 := { s with disposed := true }
    let s2 := (detachAllTerminals s1 killOk).1
    { s2 with boltDisposed := true }

end TerminalStore

namespace FileWatcher

/-- fallbackEnabled, once true, survives every single coordinator
operation: no branch of any operation ever writes false into it. -/
lemma fallbackEnabled_applyOp (s : WatcherState) (op : WatchOp)
    (h : s.fallbackEnabled = true) : (applyOp s op).fallbackEnabled = true := by
  cases op with
  | watch p cb ok =>
    simp only [applyOp, safeWatch]
    by_cases hd : s.disposed
    · simp [hd, h]
    · simp [hd, h, ensurePollingActive]
      split <;> simp [h]
  | close hc ok =>
    cases hc with
    | fallback p cb => simpa [applyOp, closeWatcher] using h
    | native wid p cb =>
      simp only [applyOp, closeWatcher]
      split <;> simp [h]
    | fallbackAfterFail p cb =>
      simp only [applyOp, closeWatcher, stopPolling]
      split <;> [skip; simpa using h]
      split <;> simp [h]
  | watchPaths ok =>
    simp only [applyOp, safeWatchPaths, ensurePollingActive]
    simp [h]
    split <;> simp [h]
  | closePaths hc =>
    cases hc <;> simpa [applyOp, closeWatchPaths] using h
  | dispose =>
    simp only [applyOp, disposeFileWatcher, stopPolling]
    split
    · exact h
    · split <;> simp [h]
  | tick =>
    simp only [applyOp, pollTick, stopPolling]
    split
    · exact h
    · split
      · split <;> simp [h]
      · exact h

/-- fallbackEnabled, once true, survives any sequence of operations. -/
lemma fallbackEnabled_foldl (s : WatcherState) (ops : List WatchOp)
    (h : s.fallbackEnabled = true) : (ops.foldl applyOp s).fallbackEnabled = true := by
  induction ops generalizing s with
  | nil => simpa using h
  | cons op rest ih => exact ih (applyOp s op) (fallbackEnabled_applyOp s op h)

end FileWatcher

open FileWatcher in
/-- C4: the Fallback transition is sticky for the whole process. Once
fallbackEnabled is true it stays true under every sequence of operations;
the one native registration failure that causes the transition writes the
persisted flag in the same step; afterwards every safeWatch registration,
on any pattern and for either outcome of the (never consulted) native
primitive, takes the shared polling path without attempting the native
watch; and a coordinator constructed while the persisted flag reads true
starts in Fallback mode. -/
theorem c4_fallback_transition_sticky :
    (∀ (s : WatcherState) (ops : List WatchOp), s.fallbackEnabled = true →
       (ops.foldl applyOp s).fallbackEnabled = true)
    ∧ (∀ (s : WatcherState) (p : String) (cb : ℕ),
        s.disposed = false → s.fallbackEnabled = false →
        ∃ s2 h, safeWatch s p cb false = Except.ok (s2, h, true)
          ∧ s2.fallbackEnabled = true ∧ s2.persistedFallback = true)
    ∧ (∀ (s : WatcherState) (p : String) (cb : ℕ) (ok : Bool),
        s.fallbackEnabled = true → s.disposed = false →
        safeWatch s p cb ok =
          Except.ok (ensurePollingActive { s with callbacks := addCallback s.callbacks p cb },
                     CloseHandle.fallback p cb, false))
    ∧ (∀ b : Bool, (initWatcherState b).fallbackEnabled = b) := by
  refine ⟨fallbackEnabled_foldl, ?_, ?_, fun b => rfl⟩
  · intro s p cb hd hf
    refine ⟨ensurePollingActive
        { { s with callbacks := addCallback s.callbacks p cb } with
            fallbackEnabled := true, persistedFallback := true },
      CloseHandle.fallbackAfterFail p cb, ?_, ?_, ?_⟩
    · simp [safeWatch, hd, hf]
    · simp [ensurePollingActive]
      split <;> simp
    · simp [ensurePollingActive]
      split <;> simp
  · intro s p cb ok hf hd
    simp [safeWatch, hd, hf]

namespace FileWatcher

/-- The direction of the specified timer invariant that the code does keep:
a running shared poll timer implies Fallback mode on a live coordinator. -/
def pollOnlyIfFallback (s : WatcherState) : Prop :=
  s.pollingInterval = true → s.fallbackEnabled = true ∧ s.disposed = false

/-- The invariant exactly as the specification words it: the shared poll
timer handle is non-null iff the coordinator is in Fallback mode and at
least one callback is registered under some pattern. -/
def pollIffInvariant (s : WatcherState) : Prop :=
  s.pollingInterval = true ↔ (s.fallbackEnabled = true ∧ s.callbacks ≠ [])

/-- Every single operation preserves pollOnlyIfFallback: the shared timer
is only ever started from a fallback branch of a live coordinator, and
disposal stops it. -/
lemma pollOnlyIfFallback_applyOp (s : WatcherState) (op : WatchOp)
    (h : pollOnlyIfFallback s) : pollOnlyIfFallback (applyOp s op) := by
  cases op with
  | watch p cb ok =>
    simp only [applyOp, safeWatch]
    by_cases hd : s.disposed
    · simpa [hd] using h
    · by_cases hf : s.fallbackEnabled
      · simp only [pollOnlyIfFallback] at h ⊢
        simp [hd, hf, ensurePollingActive]
        split <;> simp_all
      · cases ok with
        | true =>
          simp only [pollOnlyIfFallback] at h ⊢
          simp_all [hd, hf]
        | false =>
          simp only [pollOnlyIfFallback] at h ⊢
          simp [hd, hf, ensurePollingActive]
          split <;> simp_all
  | close hc ok =>
    cases hc with
    | fallback p cb =>
      simp only [pollOnlyIfFallback] at h ⊢
      simpa [applyOp, closeWatcher] using h
    | native wid p cb =>
      simp only [pollOnlyIfFallback] at h ⊢
      simp only [applyOp, closeWatcher]
      split <;> simp_all
    | fallbackAfterFail p cb =>
      simp only [pollOnlyIfFallback] at h ⊢
      simp only [applyOp, closeWatcher, stopPolling]
      split
      · split <;> simp_all
      · simp_all
  | watchPaths ok =>
    simp only [pollOnlyIfFallback] at h ⊢
    by_cases hf : s.fallbackEnabled
    · simp [applyOp, safeWatchPaths, hf, ensurePollingActive]
      split <;> simp_all
    · cases ok with
      | true => simpa [applyOp, safeWatchPaths, hf] using h
      | false =>
        simp [applyOp, safeWatchPaths, hf, ensurePollingActive]
        split <;> simp_all
  | closePaths hc =>
    cases hc <;>
      · simp only [pollOnlyIfFallback] at h ⊢
        simpa [applyOp, closeWatchPaths] using h
  | dispose =>
    simp only [pollOnlyIfFallback] at h ⊢
    simp only [applyOp, disposeFileWatcher, stopPolling]
    split
    · simp_all
    · split <;> simp_all
  | tick =>
    simp only [pollOnlyIfFallback] at h ⊢
    simp only [applyOp, pollTick, stopPolling]
    split
    · simp_all
    · split
      · split <;> simp_all
      · simp_all

/-- pollOnlyIfFallback is preserved by any operation sequence. -/
lemma pollOnlyIfFallback_foldl (s : WatcherState) (ops : List WatchOp)
    (h : pollOnlyIfFallback s) : pollOnlyIfFallback (ops.foldl applyOp s) := by
  induction ops generalizing s with
  | nil => simpa using h
  | cons op rest ih => exact ih (applyOp s op) (pollOnlyIfFallback_applyOp s op h)

end FileWatcher

open FileWatcher in
/-- C5 counterexample: the specified iff invariant is not preserved by the
unregister operation. From a coordinator that starts in Fallback mode, one
safeWatch registration (which returns the already-in-fallback close handle
and starts the shared timer) satisfies the invariant, but invoking that
close handle removes the last callback of the only pattern without stopping
the timer: afterwards the shared poll timer still runs while the callbacks
map is empty. -/
theorem c5_poll_iff_invariant_counterexample :
    safeWatch (initWatcherState true) "**/*" 0 true =
      Except.ok (applyOp (initWatcherState true) (WatchOp.watch "**/*" 0 true),
                 CloseHandle.fallback "**/*" 0, false)
    ∧ pollIffInvariant (applyOp (initWatcherState true) (WatchOp.watch "**/*" 0 true))
    ∧ ¬ pollIffInvariant
        (applyOp (applyOp (initWatcherState true) (WatchOp.watch "**/*" 0 true))
          (WatchOp.close (CloseHandle.fallback "**/*" 0) true))
    ∧ (applyOp (applyOp (initWatcherState true) (WatchOp.watch "**/*" 0 true))
        (WatchOp.close (CloseHandle.fallback "**/*" 0) true)).pollingInterval = true
    ∧ (applyOp (applyOp (initWatcherState true) (WatchOp.watch "**/*" 0 true))
        (WatchOp.close (CloseHandle.fallback "**/*" 0) true)).callbacks = [] := by
  refine ⟨by rfl, by unfold pollIffInvariant; decide, ?_, by decide, by decide⟩
  unfold pollIffInvariant
  decide

open FileWatcher in
/-- C5 amended: only one direction of the specified invariant holds — a
running shared poll timer implies Fallback mode on an undisposed
coordinator, and this is preserved by every operation sequence — and the
last-callback shutdown of the timer is performed only by the close handle
of the native-failure branch: that close stops the timer whenever the
callback removal leaves the callbacks map empty. A close handle created
while already in Fallback mode never stops the timer, and safeWatchPaths
keeps the shared timer running with no per-pattern callback registered. -/
theorem c5_poll_timer_amended :
    (∀ (s : WatcherState) (ops : List WatchOp), pollOnlyIfFallback s →
       pollOnlyIfFallback (ops.foldl applyOp s))
    ∧ (∀ (s : WatcherState) (p : String) (cb : ℕ),
        removeCallback s.callbacks p cb = [] →
        (closeWatcher s (CloseHandle.fallbackAfterFail p cb) true).pollingInterval = false)
    ∧ (∀ (s : WatcherState) (p : String) (cb : ℕ),
        (closeWatcher s (CloseHandle.fallback p cb) true).pollingInterval
          = s.pollingInterval) := by
  refine ⟨pollOnlyIfFallback_foldl, ?_, ?_⟩
  · intro s p cb h
    simp [closeWatcher, h, stopPolling]
    split <;> simp_all
  · intro s p cb
    simp [closeWatcher]

open FileWatcher in
/-- C6 counterexample: with two callbacks registered under the same pattern
in Native mode, invoking the close handle of the first releases that
registration's native watcher and deletes the pattern from watchingPaths
immediately, while the callback set of the pattern is still non-empty — so
the release is not deferred until the set becomes empty, as the claim
states. -/
theorem c6_native_release_counterexample :
    safeWatch (initWatcherState false) "**/*" 1 true =
      Except.ok (applyOp (initWatcherState false) (WatchOp.watch "**/*" 1 true),
                 CloseHandle.native 0 "**/*" 1, true)
    ∧ safeWatch (applyOp (initWatcherState false) (WatchOp.watch "**/*" 1 true))
        "**/*" 2 true =
      Except.ok (applyOp (applyOp (initWatcherState false) (WatchOp.watch "**/*" 1 true))
                   (WatchOp.watch "**/*" 2 true),
                 CloseHandle.native 1 "**/*" 2, true)
    ∧ (applyOp (applyOp (applyOp (initWatcherState false) (WatchOp.watch "**/*" 1 true))
          (WatchOp.watch "**/*" 2 true))
        (WatchOp.close (CloseHandle.native 0 "**/*" 1) true)).callbacks
        = [("**/*", [2])]
    ∧ (applyOp (applyOp (applyOp (initWatcherState false) (WatchOp.watch "**/*" 1 true))
          (WatchOp.watch "**/*" 2 true))
        (WatchOp.close (CloseHandle.native 0 "**/*" 1) true)).nativeWatchers
        = [(1, "**/*")]
    ∧ (applyOp (applyOp (applyOp (initWatcherState false) (WatchOp.watch "**/*" 1 true))
          (WatchOp.watch "**/*" 2 true))
        (WatchOp.close (CloseHandle.native 0 "**/*" 1) true)).watchingPaths
        = [] := by
  refine ⟨by rfl, by rfl, by decide, by decide, by decide⟩

open FileWatcher in
/-- C6 amended: in the two-callback Native scenario the remaining callback
does keep receiving change events, but through the second registration's
own native watcher — each safeWatch call creates a watcher of its own whose
change listener invokes the current callback set of the pattern — while the
first close releases its own watcher and the watchingPaths entry at once;
only the callbacks map entry is removed no earlier than when its set
becomes empty, which happens at the second close. -/
theorem c6_remaining_callback_still_notified :
    (applyOp (applyOp (applyOp (initWatcherState false) (WatchOp.watch "**/*" 1 true))
         (WatchOp.watch "**/*" 2 true))
       (WatchOp.close (CloseHandle.native 0 "**/*" 1) true)).callbacks
      = [("**/*", [2])]
    ∧ nativeEventCallbacks
        (applyOp (applyOp (applyOp (initWatcherState false) (WatchOp.watch "**/*" 1 true))
            (WatchOp.watch "**/*" 2 true))
          (WatchOp.close (CloseHandle.native 0 "**/*" 1) true)) 1 = [2]
    ∧ nativeEventCallbacks
        (applyOp (applyOp (applyOp (initWatcherState false) (WatchOp.watch "**/*" 1 true))
            (WatchOp.watch "**/*" 2 true))
          (WatchOp.close (CloseHandle.native 0 "**/*" 1) true)) 0 = []
    ∧ (applyOp (applyOp (applyOp (applyOp (initWatcherState false)
              (WatchOp.watch "**/*" 1 true))
            (WatchOp.watch "**/*" 2 true))
          (WatchOp.close (CloseHandle.native 0 "**/*" 1) true))
        (WatchOp.close (CloseHandle.native 1 "**/*" 2) true)).callbacks = [] := by
  refine ⟨by decide, by decide, by decide, by decide⟩

open FileWatcher TerminalStore in
/-- C7: dispose is idempotent for both registries. For the watch
coordinator and for the terminal store, the disposed flag is set before any
teardown step, and a second dispose call — with any kill outcomes — returns
the state of the first unchanged, so no timer, interval or process handle
is released twice. -/
theorem c7_dispose_idempotent :
    (∀ s : WatcherState,
       disposeFileWatcher (disposeFileWatcher s) = disposeFileWatcher s
       ∧ (disposeFileWatcher s).disposed = true)
    ∧ (∀ (s : TerminalStoreState) (k1 k2 : ℕ → Bool),
        TerminalStore.dispose (TerminalStore.dispose s k1) k2
          = TerminalStore.dispose s k1
        ∧ (TerminalStore.dispose s k1).disposed = true) := by
  constructor
  · intro s
    by_cases hd : s.disposed
    · simp [disposeFileWatcher, hd]
    · constructor
      · simp [disposeFileWatcher, hd, stopPolling]
        split <;> simp [disposeFileWatcher]
      · simp [disposeFileWatcher, hd, stopPolling]
        split <;> simp
  · intro s k1 k2
    by_cases hd : s.disposed
    · simp [TerminalStore.dispose, hd]
    · simp [TerminalStore.dispose, hd, detachAllTerminals]

open TerminalStore in
/-- C8: detachAllTerminals issues a kill request for every live (not yet
killed) record whatever the individual outcomes, always clears the
tracking array, and completes as a total function; in particular with
three live records of which the second rejects on kill, all three requests
are issued and all three records are removed. -/
theorem c8_detach_all_settles_and_clears :
    (∀ (s : TerminalStoreState) (killOk : ℕ → Bool),
       (detachAllTerminals s killOk).1.terminals = []
       ∧ (detachAllTerminals s killOk).2.map Prod.fst
           = (s.terminals.filter (fun t => !t.killed)).map (fun t => t.id)
       ∧ (detachAllTerminals s killOk).1.disposed = s.disposed)
    ∧ (detachAllTerminals
         { terminals := [{ id := 1, killed := false }, { id := 2, killed := false },
                         { id := 3, killed := false }],
           disposed := false, boltDisposed := false }
         (fun i => !(i == 2))).2 = [(1, true), (2, false), (3, true)]
    ∧ (detachAllTerminals
         { terminals := [{ id := 1, killed := false }, { id := 2, killed := false },
                         { id := 3, killed := false }],
           disposed := false, boltDisposed := false }
         (fun i => !(i == 2))).1.terminals = [] := by
  refine ⟨?_, by decide, by decide⟩
  intro s killOk
  refine ⟨rfl, ?_, rfl⟩
  simp [detachAllTerminals, List.map_map, Function.comp]

open FileWatcher in
/-- C9 counterexample: safeWatchPaths performs no disposal check — on a
disposed coordinator it still returns a polling subscription handle and
records the new individual interval, so this registration path succeeds
after dispose, contradicting the claim that no registration succeeds once
the mode is Disposed. -/
theorem c9_watchpaths_on_disposed_counterexample :
    (disposeFileWatcher (initWatcherState true)).disposed = true
    ∧ (safeWatchPaths (disposeFileWatcher (initWatcherState true)) true).2
        = WatchPathsHandle.polling 0
    ∧ (safeWatchPaths (disposeFileWatcher (initWatcherState true)) true).1.individualIntervals
        = [0] := by
  refine ⟨by decide, by decide, by decide⟩

open FileWatcher in
/-- C9 amended: only the per-pattern registration checks disposal — every
safeWatch call on a disposed coordinator fails with the
"Cannot watch files with disposed file watcher" error, whatever the
pattern, callback or native outcome — while safeWatchPaths has no disposed
check and returns a subscription handle even on a disposed coordinator
(its fallback tick is inert once disposed, but the registration itself
succeeds). -/
theorem c9_disposed_registration_amended :
    (∀ (s : WatcherState) (p : String) (cb : ℕ) (ok : Bool), s.disposed = true →
       safeWatch s p cb ok = Except.error "Cannot watch files with disposed file watcher")
    ∧ (disposeFileWatcher (initWatcherState true)).disposed = true
    ∧ safeWatchPaths (disposeFileWatcher (initWatcherState true)) true
        = ({ disposeFileWatcher (initWatcherState true) with
               individualIntervals := [0], nextId := 1 },
           WatchPathsHandle.polling 0) := by
  refine ⟨?_, by decide, by rfl⟩
  intro s p cb ok hd
  simp [safeWatch, hd]
